import Mathlib

/-! Shallow embedding of the ScalableBackendStack CDK application.

The repository consists of an entry point (`src/app.ts`) and a stack
definition (`ScalableBackendStack`).  The stack constructor builds a static
tree of infrastructure configuration records.  We embed each record as a
Lean structure whose fields mirror the properties passed to the CDK
constructs, and the stack constructor as a pure function
`buildScalableBackendStack` from the optional account/region environment
parameters to the record tree.  Each local const of the constructor body
(`vpc`, `dataBucket`, `database`, ...) becomes a top-level definition of
the same name; only the bucket name and the outputs depend on the
account/region parameters.  Unresolved deploy-time tokens (account id,
region, load-balancer DNS name, ...) are represented by symbolic strings.
-/

/-- Subnet roles used in the VPC configuration. -/
inductive SubnetType where
  | publicSubnet
  | privateWithEgress
  deriving Repr, DecidableEq

/-- One entry of the VPC subnetConfiguration. -/
structure SubnetConfiguration where
  cidrMask : Nat
  name : String
  subnetType : SubnetType
  deriving Repr, DecidableEq

/-- `ec2.Vpc` record. -/
structure Vpc where
  id : String
  maxAzs : Nat
  natGateways : Nat
  subnetConfiguration : List SubnetConfiguration
  deriving Repr, DecidableEq

/-- `s3.BucketEncryption` values used. -/
inductive BucketEncryption where
  | s3Managed
  deriving Repr, DecidableEq

/-- `s3.BlockPublicAccess` values used. -/
inductive BlockPublicAccess where
  | blockAll
  deriving Repr, DecidableEq

/-- `cdk.RemovalPolicy` values. -/
inductive RemovalPolicy where
  | destroy
  | retain
  deriving Repr, DecidableEq

/-- `s3.Bucket` record. -/
structure Bucket where
  id : String
  bucketName : String
  versioned : Bool
  encryption : BucketEncryption
  blockPublicAccess : BlockPublicAccess
  removalPolicy : RemovalPolicy
  deriving Repr, DecidableEq

/-- `rds.SubnetGroup` record. -/
structure SubnetGroup where
  id : String
  vpcId : String
  description : String
  subnetType : SubnetType
  deriving Repr, DecidableEq

/-- `secretsmanager.Secret` record. -/
structure Secret where
  id : String
  secretStringTemplate : String
  generateStringKey : String
  excludeCharacters : String
  deriving Repr, DecidableEq

/-- `ec2.InstanceType.of(class, size)`. -/
structure InstanceType where
  instanceClass : String
  instanceSize : String
  deriving Repr, DecidableEq

/-- A security-group peer: any IPv4 source or a reference to another
security group declared in the tree. -/
inductive Peer where
  | anyIpv4
  | securityGroupRef (sgId : String)
  deriving Repr, DecidableEq

/-- One ingress rule of a security group (TCP, single port). -/
structure IngressRule where
  peer : Peer
  port : Nat
  description : String
  deriving Repr, DecidableEq

/-- `ec2.SecurityGroup` record, with the ingress rules added to it by the
constructor body. -/
structure SecurityGroup where
  id : String
  vpcId : String
  description : String
  allowAllOutbound : Bool
  ingressRules : List IngressRule
  deriving Repr, DecidableEq

/-- `rds.DatabaseInstance` record.  `ingress` holds the connections opened
by `database.connections.allowFrom(...)`: (peer security group id, port). -/
structure DatabaseInstance where
  id : String
  engine : String
  engineVersion : String
  instanceType : InstanceType
  vpcId : String
  subnetGroupId : String
  credentialsSecretId : String
  multiAz : Bool
  allocatedStorage : Nat
  storageEncrypted : Bool
  deletionProtection : Bool
  removalPolicy : RemovalPolicy
  ingress : List (String × Nat)
  deriving Repr, DecidableEq

/-- `iam.Role` record. -/
structure Role where
  id : String
  assumedBy : String
  managedPolicies : List String
  deriving Repr, DecidableEq

/-- `ec2.LaunchTemplate` record. -/
structure LaunchTemplate where
  id : String
  instanceType : InstanceType
  machineImage : String
  securityGroupId : String
  roleId : String
  userDataCommands : List String
  deriving Repr, DecidableEq

/-- Auto Scaling Group health check: ELB-based with a grace period. -/
inductive AsgHealthCheck where
  | elb (graceMinutes : Nat)
  deriving Repr, DecidableEq

/-- `autoscaling.AutoScalingGroup` record. -/
structure AutoScalingGroup where
  id : String
  vpcId : String
  launchTemplateId : String
  minCapacity : Nat
  maxCapacity : Nat
  desiredCapacity : Nat
  vpcSubnets : SubnetType
  healthCheck : AsgHealthCheck
  deriving Repr, DecidableEq

/-- `elbv2.ApplicationLoadBalancer` record. -/
structure ApplicationLoadBalancer where
  id : String
  vpcId : String
  internetFacing : Bool
  securityGroupId : String
  vpcSubnets : SubnetType
  deriving Repr, DecidableEq

/-- Target-group health check configuration. -/
structure TgHealthCheck where
  enabled : Bool
  healthyHttpCodes : String
  path : String
  protocol : String
  deriving Repr, DecidableEq

/-- `elbv2.ApplicationTargetGroup` record; `targets` holds the ids of the
registered targets (here the auto scaling group). -/
structure ApplicationTargetGroup where
  id : String
  vpcId : String
  port : Nat
  protocol : String
  targets : List String
  healthCheck : TgHealthCheck
  deriving Repr, DecidableEq

/-- ALB listener record. -/
structure Listener where
  id : String
  loadBalancerId : String
  port : Nat
  protocol : String
  defaultTargetGroupIds : List String
  deriving Repr, DecidableEq

/-- `apigateway.RestApi` record with its proxy integration. -/
structure RestApi where
  id : String
  restApiName : String
  description : String
  corsAllowOrigins : String
  corsAllowMethods : String
  integrationTarget : String
  integrationHttpMethod : String
  integrationProxy : Bool
  proxyAnyMethod : Bool
  deriving Repr, DecidableEq

/-- `ecs.Cluster` record. -/
structure Cluster where
  id : String
  vpcId : String
  clusterName : String
  deriving Repr, DecidableEq

/-- Container definition added to the Fargate task definition. -/
structure ContainerDefinition where
  id : String
  image : String
  command : List String
  logStreamPrefixVal : String
  logRetentionDays : Nat
  deriving Repr, DecidableEq

/-- `ecs.FargateTaskDefinition` record. -/
structure FargateTaskDefinition where
  id : String
  memoryLimitMiB : Nat
  cpu : Nat
  taskRoleId : String
  container : ContainerDefinition
  deriving Repr, DecidableEq

/-- `ecs.FargateService` record. -/
structure FargateService where
  id : String
  clusterId : String
  taskDefinitionId : String
  desiredCount : Nat
  vpcSubnets : SubnetType
  deriving Repr, DecidableEq

/-- `cloudwatch.Dashboard` record; no widgets are ever added. -/
structure Dashboard where
  id : String
  dashboardName : String
  widgets : List String
  deriving Repr, DecidableEq

/-- A CloudWatch metric reference.  The only metric used is
`autoScalingGroup.metricCpuUtilization()`. -/
inductive Metric where
  | cpuUtilization (asgId : String)
  deriving Repr, DecidableEq

/-- `cloudwatch.TreatMissingData` values used. -/
inductive TreatMissingData where
  | notBreaching
  deriving Repr, DecidableEq

/-- `cloudwatch.Alarm` record; `alarmActions` holds attached actions (none
are ever attached). -/
structure Alarm where
  id : String
  metric : Metric
  threshold : ℚ
  evaluationPeriods : Nat
  treatMissingData : TreatMissingData
  alarmActions : List String
  deriving Repr, DecidableEq

/-- One scaling step interval, as passed to `scaleOnMetric`: the step
applies when lower <= value < upper (absent bounds are unbounded). -/
structure ScalingInterval where
  lower : Option ℚ
  upper : Option ℚ
  change : Int
  deriving Repr, DecidableEq

/-- `autoscaling.AdjustmentType` values used. -/
inductive AdjustmentType where
  | changeInCapacity
  deriving Repr, DecidableEq

/-- A step-scaling policy created by `scaleOnMetric`. -/
structure StepScalingPolicy where
  id : String
  asgId : String
  metric : Metric
  scalingSteps : List ScalingInterval
  adjustmentType : AdjustmentType
  deriving Repr, DecidableEq

/-- `cdk.CfnOutput` record: a string value with a descriptive label. -/
structure CfnOutput where
  id : String
  value : String
  description : String
  deriving Repr, DecidableEq

/-- The full descriptor tree built by the `ScalableBackendStack`
constructor. -/
structure ScalableBackendStack where
  account : Option String
  region : Option String
  description : String
  vpc : Vpc
  dataBucket : Bucket
  dbSubnetGroup : SubnetGroup
  dbSecret : Secret
  database : DatabaseInstance
  backendSecurityGroup : SecurityGroup
  albSecurityGroup : SecurityGroup
  backendRole : Role
  launchTemplate : LaunchTemplate
  autoScalingGroup : AutoScalingGroup
  alb : ApplicationLoadBalancer
  targetGroup : ApplicationTargetGroup
  listener : Listener
  api : RestApi
  cluster : Cluster
  fargateTaskRole : Role
  taskDefinition : FargateTaskDefinition
  fargateService : FargateService
  dashboard : Dashboard
  cpuAlarm : Alarm
  scaleUpPolicy : StepScalingPolicy
  scaleDownPolicy : StepScalingPolicy
  outputs : List CfnOutput
  deriving Repr, DecidableEq

/-- `this.account`: the env-supplied account, or the unresolved
account-id pseudo parameter token when absent. -/
def resolvedAccount (account : Option String) : String :=
  account.getD "TOKEN:AWS::AccountId"

/-- `this.region`: the env-supplied region, or the unresolved region
pseudo parameter token when absent. -/
def resolvedRegion (region : Option String) : String :=
  region.getD "TOKEN:AWS::Region"

/-- The `vpc` const: `new ec2.Vpc(this, 'ScalableBackendVPC', ...)`. -/
def vpc : Vpc :=
  { id := "ScalableBackendVPC"
    maxAzs := 3
    natGateways := 2
    subnetConfiguration :=
      [ { cidrMask := 24, name := "Public",
          subnetType := SubnetType.publicSubnet },
        { cidrMask := 24, name := "Private-Backend",
          subnetType := SubnetType.privateWithEgress },
        { cidrMask := 24, name := "Private-Clients",
          subnetType := SubnetType.privateWithEgress } ] }

/-- The `dataBucket` const: `new s3.Bucket(this, 'DataBucket', ...)`. -/
def dataBucket (account region : Option String) : Bucket :=
  { id := "DataBucket"
    bucketName :=
      "scalable-backend-data-" ++ resolvedAccount account ++ "-" ++
        resolvedRegion region
    versioned := true
    encryption := BucketEncryption.s3Managed
    blockPublicAccess := BlockPublicAccess.blockAll
    removalPolicy := RemovalPolicy.destroy }

/-- The `dbSubnetGroup` const: `new rds.SubnetGroup(this,
'DatabaseSubnetGroup', ...)`. -/
def dbSubnetGroup : SubnetGroup :=
  { id := "DatabaseSubnetGroup"
    vpcId := "ScalableBackendVPC"
    description := "Subnet group for RDS database"
    subnetType := SubnetType.privateWithEgress }

/-- The `dbSecret` const: `new secretsmanager.Secret(this,
'DatabaseSecret', ...)`. -/
def dbSecret : Secret :=
  { id := "DatabaseSecret"
    secretStringTemplate := "\x7b\"username\":\"admin\"\x7d"
    generateStringKey := "password"
    excludeCharacters := "\"@/\\" }

/-- The `database` const: `new rds.DatabaseInstance(this, 'Database',
...)`, together with the ingress opened on it by
`database.connections.allowFrom(backendSecurityGroup, Port.tcp(5432))`. -/
def database : DatabaseInstance :=
  { id := "Database"
    engine := "postgres"
    engineVersion := "15.4"
    instanceType := { instanceClass := "t3", instanceSize := "micro" }
    vpcId := "ScalableBackendVPC"
    subnetGroupId := "DatabaseSubnetGroup"
    credentialsSecretId := "DatabaseSecret"
    multiAz := false
    allocatedStorage := 20
    storageEncrypted := true
    deletionProtection := false
    removalPolicy := RemovalPolicy.destroy
    ingress := [("BackendSecurityGroup", 5432)] }

/-- The `backendSecurityGroup` const with the ingress rule added by
`backendSecurityGroup.addIngressRule(albSecurityGroup, Port.tcp(8080), ...)`. -/
def backendSecurityGroup : SecurityGroup :=
  { id := "BackendSecurityGroup"
    vpcId := "ScalableBackendVPC"
    description := "Security group for backend instances"
    allowAllOutbound := true
    ingressRules :=
      [ { peer := Peer.securityGroupRef "ALBSecurityGroup",
          port := 8080,
          description := "Allow traffic from ALB" } ] }

/-- The `albSecurityGroup` const with its two `addIngressRule` calls. -/
def albSecurityGroup : SecurityGroup :=
  { id := "ALBSecurityGroup"
    vpcId := "ScalableBackendVPC"
    description := "Security group for Application Load Balancer"
    allowAllOutbound := true
    ingressRules :=
      [ { peer := Peer.anyIpv4, port := 80,
          description := "Allow HTTP traffic from anywhere" },
        { peer := Peer.anyIpv4, port := 443,
          description := "Allow HTTPS traffic from anywhere" } ] }

/-- The `backendRole` const: `new iam.Role(this, 'BackendInstanceRole',
...)`. -/
def backendRole : Role :=
  { id := "BackendInstanceRole"
    assumedBy := "ec2.amazonaws.com"
    managedPolicies :=
      ["CloudWatchAgentServerPolicy", "AmazonSSMManagedInstanceCore"] }

/-- The `launchTemplate` const: `new ec2.LaunchTemplate(this,
'BackendLaunchTemplate', ...)`, with the userData command list. -/
def launchTemplate : LaunchTemplate :=
  { id := "BackendLaunchTemplate"
    instanceType := { instanceClass := "t3", instanceSize := "micro" }
    machineImage := "latestAmazonLinux2"
    securityGroupId := "BackendSecurityGroup"
    roleId := "BackendInstanceRole"
    userDataCommands :=
      [ "yum update -y",
        "yum install -y docker",
        "systemctl start docker",
        "systemctl enable docker",
        "usermod -a -G docker ec2-user",
        "wget https://s3.amazonaws.com/amazoncloudwatch-agent/amazon_linux/amd64/latest/amazon-cloudwatch-agent.rpm",
        "rpm -U ./amazon-cloudwatch-agent.rpm",
        "docker run -d -p 8080:8080 --name backend-app nginx:alpine" ] }

/-- The `autoScalingGroup` const: `new autoscaling.AutoScalingGroup(this,
'BackendAutoScalingGroup', ...)`. -/
def autoScalingGroup : AutoScalingGroup :=
  { id := "BackendAutoScalingGroup"
    vpcId := "ScalableBackendVPC"
    launchTemplateId := "BackendLaunchTemplate"
    minCapacity := 2
    maxCapacity := 10
    desiredCapacity := 3
    vpcSubnets := SubnetType.privateWithEgress
    healthCheck := AsgHealthCheck.elb 5 }

/-- The `alb` const: `new elbv2.ApplicationLoadBalancer(this,
'ApplicationLoadBalancer', ...)`. -/
def alb : ApplicationLoadBalancer :=
  { id := "ApplicationLoadBalancer"
    vpcId := "ScalableBackendVPC"
    internetFacing := true
    securityGroupId := "ALBSecurityGroup"
    vpcSubnets := SubnetType.publicSubnet }

/-- The `targetGroup` const: `new elbv2.ApplicationTargetGroup(this,
'BackendTargetGroup', ...)`. -/
def targetGroup : ApplicationTargetGroup :=
  { id := "BackendTargetGroup"
    vpcId := "ScalableBackendVPC"
    port := 8080
    protocol := "HTTP"
    targets := ["BackendAutoScalingGroup"]
    healthCheck :=
      { enabled := true
        healthyHttpCodes := "200"
        path := "/health"
        protocol := "HTTP" } }

/-- The `listener` const: `alb.addListener('Listener', ...)`. -/
def listener : Listener :=
  { id := "Listener"
    loadBalancerId := "ApplicationLoadBalancer"
    port := 80
    protocol := "HTTP"
    defaultTargetGroupIds := ["BackendTargetGroup"] }

/-- The `api` const: `new apigateway.RestApi(this, 'BackendAPI', ...)`
with its proxy integration toward the ALB. -/
def api : RestApi :=
  { id := "BackendAPI"
    restApiName := "Scalable Backend API"
    description := "REST API for scalable backend service"
    corsAllowOrigins := "ALL_ORIGINS"
    corsAllowMethods := "ALL_METHODS"
    integrationTarget := "http://TOKEN:ALB_DNS_NAME"
    integrationHttpMethod := "ANY"
    integrationProxy := true
    proxyAnyMethod := true }

/-- The `cluster` const: `new ecs.Cluster(this, 'FargateCluster', ...)`. -/
def cluster : Cluster :=
  { id := "FargateCluster"
    vpcId := "ScalableBackendVPC"
    clusterName := "download-agents-cluster" }

/-- The `fargateTaskRole` const: `new iam.Role(this, 'FargateTaskRole',
...)`. -/
def fargateTaskRole : Role :=
  { id := "FargateTaskRole"
    assumedBy := "ecs-tasks.amazonaws.com"
    managedPolicies := [] }

/-- The `taskDefinition` const with its added container. -/
def taskDefinition : FargateTaskDefinition :=
  { id := "DownloadAgentTaskDefinition"
    memoryLimitMiB := 512
    cpu := 256
    taskRoleId := "FargateTaskRole"
    container :=
      { id := "DownloadAgentContainer"
        image := "alpine:latest"
        command :=
          [ "sh", "-c",
            "while true; do echo \"Download agent running...\"; sleep 60; done" ]
        logStreamPrefixVal := "download-agent"
        logRetentionDays := 7 } }

/-- The `fargateService` const: `new ecs.FargateService(this,
'DownloadAgentService', ...)`. -/
def fargateService : FargateService :=
  { id := "DownloadAgentService"
    clusterId := "FargateCluster"
    taskDefinitionId := "DownloadAgentTaskDefinition"
    desiredCount := 3
    vpcSubnets := SubnetType.privateWithEgress }

/-- The `dashboard` const: `new cloudwatch.Dashboard(this,
'ScalableBackendDashboard', ...)`; no widgets are added to it. -/
def dashboard : Dashboard :=
  { id := "ScalableBackendDashboard"
    dashboardName := "ScalableBackendMonitoring"
    widgets := [] }

/-- The `cpuAlarm` const: `new cloudwatch.Alarm(this, 'HighCPUAlarm',
...)`; no alarm actions are attached to it. -/
def cpuAlarm : Alarm :=
  { id := "HighCPUAlarm"
    metric := Metric.cpuUtilization "BackendAutoScalingGroup"
    threshold := 80
    evaluationPeriods := 2
    treatMissingData := TreatMissingData.notBreaching
    alarmActions := [] }

/-- The `scaleUpPolicy` const:
`autoScalingGroup.scaleOnMetric('ScaleUpPolicy', ...)`. -/
def scaleUpPolicy : StepScalingPolicy :=
  { id := "ScaleUpPolicy"
    asgId := "BackendAutoScalingGroup"
    metric := Metric.cpuUtilization "BackendAutoScalingGroup"
    scalingSteps :=
      [ { lower := none, upper := some 50, change := 1 },
        { lower := some 80, upper := none, change := 2 } ]
    adjustmentType := AdjustmentType.changeInCapacity }

/-- The `scaleDownPolicy` const:
`autoScalingGroup.scaleOnMetric('ScaleDownPolicy', ...)`. -/
def scaleDownPolicy : StepScalingPolicy :=
  { id := "ScaleDownPolicy"
    asgId := "BackendAutoScalingGroup"
    metric := Metric.cpuUtilization "BackendAutoScalingGroup"
    scalingSteps :=
      [ { lower := none, upper := some 30, change := -1 } ]
    adjustmentType := AdjustmentType.changeInCapacity }

/-- The four `new cdk.CfnOutput(this, ..., ...)` calls, in order. -/
def stackOutputs (account region : Option String) : List CfnOutput :=
  [ { id := "LoadBalancerDNS"
      value := "TOKEN:ALB_DNS_NAME"
      description := "DNS name of the Application Load Balancer" },
    { id := "APIGatewayURL"
      value := "TOKEN:API_GATEWAY_URL"
      description := "URL of the API Gateway" },
    { id := "S3BucketName"
      value := (dataBucket account region).bucketName
      description := "Name of the S3 data bucket" },
    { id := "DatabaseEndpoint"
      value := "TOKEN:DB_ENDPOINT_HOSTNAME"
      description := "RDS database endpoint" } ]

/-- The body of the `ScalableBackendStack` constructor, as a pure function
of the stack environment parameters. -/
def buildScalableBackendStack (account region : Option String) :
    ScalableBackendStack :=
  { account := account
    region := region
    description :=
      "Scalable backend service with Auto Scaling Group, ALB, and Fargate clients"
    vpc := vpc
    dataBucket := dataBucket account region
    dbSubnetGroup := dbSubnetGroup
    dbSecret := dbSecret
    database := database
    backendSecurityGroup := backendSecurityGroup
    albSecurityGroup := albSecurityGroup
    backendRole := backendRole
    launchTemplate := launchTemplate
    autoScalingGroup := autoScalingGroup
    alb := alb
    targetGroup := targetGroup
    listener := listener
    api := api
    cluster := cluster
    fargateTaskRole := fargateTaskRole
    taskDefinition := taskDefinition
    fargateService := fargateService
    dashboard := dashboard
    cpuAlarm := cpuAlarm
    scaleUpPolicy := scaleUpPolicy
    scaleDownPolicy := scaleDownPolicy
    outputs := stackOutputs account region }

/-- The constructor body defines no error branch of its own: embedded as a
fallible computation it always succeeds with the constructed tree. -/
def buildScalableBackendStackChecked (account region : Option String) :
    Except String ScalableBackendStack :=
  Except.ok (buildScalableBackendStack account region)

/-- The CDK application: a list of stacks and a count of `app.synth()`
calls. -/
structure CdkApp where
  stackList : List ScalableBackendStack
  synthCalls : Nat
  deriving Repr, DecidableEq

/-- The entry point `src/app.ts`: reads the two `CDK_DEFAULT_*` environment
variables, constructs the stack with them as environment parameters, and
calls `app.synth()` once. -/
def mainApp (env : String → Option String) : CdkApp :=
  { stackList :=
      [buildScalableBackendStack (env "CDK_DEFAULT_ACCOUNT")
        (env "CDK_DEFAULT_REGION")]
    synthCalls := 1 }

/-- Whether a metric value falls in a scaling interval.  Step-scaling
interval bounds are lower-inclusive and upper-exclusive; an absent bound is
unbounded. -/
def matchesInterval (s : ScalingInterval) (v : ℚ) : Bool :=
  (match s.lower with
   | none => true
   | some l => decide (l ≤ v)) &&
  (match s.upper with
   | none => true
   | some u => decide (v < u))

/-- Capacity change prescribed by a list of scaling steps at a metric
value: the change of the first interval containing the value, and no
change when no interval contains it. -/
def evalScalingSteps : List ScalingInterval → ℚ → Int
  | [], _ => 0
  | s :: rest, v =>
    if matchesInterval s v then s.change else evalScalingSteps rest v

/-- The construct ids declared in a stack's descriptor tree. -/
def declaredIds (s : ScalableBackendStack) : List String :=
  [s.vpc.id, s.dataBucket.id, s.dbSubnetGroup.id, s.dbSecret.id,
   s.database.id, s.backendSecurityGroup.id, s.albSecurityGroup.id,
   s.backendRole.id, s.launchTemplate.id, s.autoScalingGroup.id, s.alb.id,
   s.targetGroup.id, s.listener.id, s.api.id, s.cluster.id,
   s.fargateTaskRole.id, s.taskDefinition.id, s.fargateService.id,
   s.dashboard.id, s.cpuAlarm.id, s.scaleUpPolicy.id, s.scaleDownPolicy.id]

/-- The construct id a security-group peer refers to, if any. -/
def peerRef (p : Peer) : Option String :=
  match p with
  | Peer.anyIpv4 => none
  | Peer.securityGroupRef sgId => some sgId

/-- The construct id underlying a metric reference. -/
def metricRef (m : Metric) : String :=
  match m with
  | Metric.cpuUtilization asgId => asgId

/-- Every cross-record reference appearing in a stack's descriptor tree. -/
def referencedIds (s : ScalableBackendStack) : List String :=
  [s.dbSubnetGroup.vpcId, s.database.vpcId, s.database.subnetGroupId,
   s.database.credentialsSecretId] ++
  s.database.ingress.map Prod.fst ++
  [s.backendSecurityGroup.vpcId, s.albSecurityGroup.vpcId] ++
  (s.backendSecurityGroup.ingressRules ++
    s.albSecurityGroup.ingressRules).filterMap (fun r => peerRef r.peer) ++
  [s.launchTemplate.securityGroupId, s.launchTemplate.roleId,
   s.autoScalingGroup.vpcId, s.autoScalingGroup.launchTemplateId,
   s.alb.vpcId, s.alb.securityGroupId, s.targetGroup.vpcId] ++
  s.targetGroup.targets ++
  [s.listener.loadBalancerId] ++
  s.listener.defaultTargetGroupIds ++
  [s.cluster.vpcId, s.taskDefinition.taskRoleId, s.fargateService.clusterId,
   s.fargateService.taskDefinitionId] ++
  s.dashboard.widgets ++
  s.cpuAlarm.alarmActions ++
  [metricRef s.cpuAlarm.metric, s.scaleUpPolicy.asgId,
   metricRef s.scaleUpPolicy.metric, s.scaleDownPolicy.asgId,
   metricRef s.scaleDownPolicy.metric]

/-- Projection of the built stack to the `vpc` record. -/
@[simp] theorem buildStack_vpc (a r : Option String) :
    (buildScalableBackendStack a r).vpc = vpc := rfl

/-- Projection of the built stack to the `dataBucket` record. -/
@[simp] theorem buildStack_dataBucket (a r : Option String) :
    (buildScalableBackendStack a r).dataBucket = dataBucket a r := rfl

/-- Projection of the built stack to the `dbSubnetGroup` record. -/
@[simp] theorem buildStack_dbSubnetGroup (a r : Option String) :
    (buildScalableBackendStack a r).dbSubnetGroup = dbSubnetGroup := rfl

/-- Projection of the built stack to the `database` record. -/
@[simp] theorem buildStack_database (a r : Option String) :
    (buildScalableBackendStack a r).database = database := rfl

/-- Projection of the built stack to the `backendSecurityGroup` record. -/
@[simp] theorem buildStack_backendSecurityGroup (a r : Option String) :
    (buildScalableBackendStack a r).backendSecurityGroup =
      backendSecurityGroup := rfl

/-- Projection of the built stack to the `albSecurityGroup` record. -/
@[simp] theorem buildStack_albSecurityGroup (a r : Option String) :
    (buildScalableBackendStack a r).albSecurityGroup = albSecurityGroup := rfl

/-- Projection of the built stack to the `launchTemplate` record. -/
@[simp] theorem buildStack_launchTemplate (a r : Option String) :
    (buildScalableBackendStack a r).launchTemplate = launchTemplate := rfl

/-- Projection of the built stack to the `autoScalingGroup` record. -/
@[simp] theorem buildStack_autoScalingGroup (a r : Option String) :
    (buildScalableBackendStack a r).autoScalingGroup = autoScalingGroup := rfl

/-- Projection of the built stack to the `targetGroup` record. -/
@[simp] theorem buildStack_targetGroup (a r : Option String) :
    (buildScalableBackendStack a r).targetGroup = targetGroup := rfl

/-- Projection of the built stack to the `listener` record. -/
@[simp] theorem buildStack_listener (a r : Option String) :
    (buildScalableBackendStack a r).listener = listener := rfl

/-- Projection of the built stack to the `dashboard` record. -/
@[simp] theorem buildStack_dashboard (a r : Option String) :
    (buildScalableBackendStack a r).dashboard = dashboard := rfl

/-- Projection of the built stack to the `cpuAlarm` record. -/
@[simp] theorem buildStack_cpuAlarm (a r : Option String) :
    (buildScalableBackendStack a r).cpuAlarm = cpuAlarm := rfl

/-- Projection of the built stack to the `scaleUpPolicy` record. -/
@[simp] theorem buildStack_scaleUpPolicy (a r : Option String) :
    (buildScalableBackendStack a r).scaleUpPolicy = scaleUpPolicy := rfl

/-- Projection of the built stack to the `scaleDownPolicy` record. -/
@[simp] theorem buildStack_scaleDownPolicy (a r : Option String) :
    (buildScalableBackendStack a r).scaleDownPolicy = scaleDownPolicy := rfl

/-- Projection of the built stack to the output list. -/
@[simp] theorem buildStack_outputs (a r : Option String) :
    (buildScalableBackendStack a r).outputs = stackOutputs a r := rfl

/-- C1: in the constructed descriptor tree the declared port numbers and
health-check paths are mutually consistent: the target group's port is
8080 and equals the port the backend security group admits from the ALB's
security group; the listener's port 80 is among the ports the ALB's
security group admits from any IPv4 source; and the target group's
health check is enabled with path "/health" and expected status "200",
behind the listener that forwards to this target group. -/
theorem c1_ports_and_health_checks_consistent (account region : Option String) :
    (buildScalableBackendStack account region).targetGroup.port = 8080 ∧
    (∃ r ∈ (buildScalableBackendStack account region).backendSecurityGroup.ingressRules,
      r.peer = Peer.securityGroupRef
        (buildScalableBackendStack account region).albSecurityGroup.id ∧
      r.port = (buildScalableBackendStack account region).targetGroup.port) ∧
    (buildScalableBackendStack account region).listener.port = 80 ∧
    (buildScalableBackendStack account region).listener.port ∈
      (((buildScalableBackendStack account region).albSecurityGroup.ingressRules.filter
        (fun r => r.peer = Peer.anyIpv4)).map (fun r => r.port)) ∧
    (buildScalableBackendStack account region).targetGroup.healthCheck.enabled = true ∧
    (buildScalableBackendStack account region).targetGroup.healthCheck.path = "/health" ∧
    (buildScalableBackendStack account region).targetGroup.healthCheck.healthyHttpCodes = "200" ∧
    (buildScalableBackendStack account region).listener.defaultTargetGroupIds =
      [(buildScalableBackendStack account region).targetGroup.id] := by
  simp only [buildStack_targetGroup, buildStack_backendSecurityGroup,
    buildStack_albSecurityGroup, buildStack_listener]
  decide

/-- C2: the compute scaling record declares the launch template, capacities
2 <= 3 <= 10 (minimum, desired, maximum), an ELB health check with a
5-minute grace period, and both step-scaling policies use the scaling
group's own CPU-utilization metric over nonempty scaling steps. -/
theorem c2_compute_scaling_record (account region : Option String) :
    (buildScalableBackendStack account region).autoScalingGroup.launchTemplateId =
      (buildScalableBackendStack account region).launchTemplate.id ∧
    (buildScalableBackendStack account region).autoScalingGroup.minCapacity = 2 ∧
    (buildScalableBackendStack account region).autoScalingGroup.desiredCapacity = 3 ∧
    (buildScalableBackendStack account region).autoScalingGroup.maxCapacity = 10 ∧
    (buildScalableBackendStack account region).autoScalingGroup.minCapacity ≤
      (buildScalableBackendStack account region).autoScalingGroup.desiredCapacity ∧
    (buildScalableBackendStack account region).autoScalingGroup.desiredCapacity ≤
      (buildScalableBackendStack account region).autoScalingGroup.maxCapacity ∧
    (buildScalableBackendStack account region).autoScalingGroup.healthCheck =
      AsgHealthCheck.elb 5 ∧
    (buildScalableBackendStack account region).scaleUpPolicy.metric =
      Metric.cpuUtilization
        (buildScalableBackendStack account region).autoScalingGroup.id ∧
    (buildScalableBackendStack account region).scaleDownPolicy.metric =
      Metric.cpuUtilization
        (buildScalableBackendStack account region).autoScalingGroup.id ∧
    (buildScalableBackendStack account region).scaleUpPolicy.scalingSteps ≠ [] ∧
    (buildScalableBackendStack account region).scaleDownPolicy.scalingSteps ≠ [] := by
  simp only [buildStack_autoScalingGroup, buildStack_launchTemplate,
    buildStack_scaleUpPolicy, buildStack_scaleDownPolicy]
  decide

/-- C3: for every pair of environment inputs the synthesized result
contains exactly four string-valued outputs, with these ids and
descriptive labels, and every label is nonempty. -/
theorem c3_four_labelled_outputs (account region : Option String) :
    (buildScalableBackendStack account region).outputs.length = 4 ∧
    ((buildScalableBackendStack account region).outputs.map
        (fun o => (o.id, o.description))) =
      [("LoadBalancerDNS", "DNS name of the Application Load Balancer"),
       ("APIGatewayURL", "URL of the API Gateway"),
       ("S3BucketName", "Name of the S3 data bucket"),
       ("DatabaseEndpoint", "RDS database endpoint")] ∧
    ∀ o ∈ (buildScalableBackendStack account region).outputs,
      o.description ≠ "" := by
  refine ⟨rfl, rfl, ?_⟩
  intro o ho
  simp only [buildStack_outputs] at ho
  have hm := List.mem_map_of_mem (fun o : CfnOutput => o.description) ho
  rw [show (stackOutputs account region).map (fun o : CfnOutput => o.description) =
      ["DNS name of the Application Load Balancer", "URL of the API Gateway",
       "Name of the S3 data bucket", "RDS database endpoint"] from rfl] at hm
  intro hempty
  simp only [hempty] at hm
  exact absurd hm (by decide)

/-- C4: the entry point reads exactly the account-selecting and the
region-selecting environment variables (two environments agreeing on those
two keys produce the same application), passes them as the stack's
environment parameters, and triggers synthesis exactly once. -/
theorem c4_entry_point_env (e1 e2 : String → Option String)
    (ha : e1 "CDK_DEFAULT_ACCOUNT" = e2 "CDK_DEFAULT_ACCOUNT")
    (hr : e1 "CDK_DEFAULT_REGION" = e2 "CDK_DEFAULT_REGION") :
    mainApp e1 = mainApp e2 ∧
    (mainApp e1).synthCalls = 1 ∧
    (mainApp e1).stackList =
      [buildScalableBackendStack (e1 "CDK_DEFAULT_ACCOUNT")
        (e1 "CDK_DEFAULT_REGION")] := by
  refine ⟨?_, rfl, rfl⟩
  simp only [mainApp, ha, hr]

/-- C4 witness: the entry-point theorem applied to a concrete pair of
environments. -/
theorem c4_entry_point_env_witness :
    mainApp (fun _ => none) = mainApp (fun _ => none) ∧
    (mainApp (fun _ => none)).synthCalls = 1 ∧
    (mainApp (fun _ => none)).stackList =
      [buildScalableBackendStack none none] :=
  c4_entry_point_env (fun _ => none) (fun _ => none) rfl rfl

/-- C5: every cross-record reference in the constructed tree resolves to a
construct id declared in the same tree; in particular the scaling group
sits in the network record's private-with-egress subnets, the target group
references the scaling group as its traffic target, and the database
references the subnet group and the backend security boundary. -/
theorem c5_references_resolve (account region : Option String) :
    (∀ i ∈ referencedIds (buildScalableBackendStack account region),
      i ∈ declaredIds (buildScalableBackendStack account region)) ∧
    (buildScalableBackendStack account region).autoScalingGroup.vpcId =
      (buildScalableBackendStack account region).vpc.id ∧
    (buildScalableBackendStack account region).autoScalingGroup.vpcSubnets =
      SubnetType.privateWithEgress ∧
    SubnetType.privateWithEgress ∈
      ((buildScalableBackendStack account region).vpc.subnetConfiguration.map
        (fun c => c.subnetType)) ∧
    (buildScalableBackendStack account region).targetGroup.targets =
      [(buildScalableBackendStack account region).autoScalingGroup.id] ∧
    (buildScalableBackendStack account region).database.subnetGroupId =
      (buildScalableBackendStack account region).dbSubnetGroup.id ∧
    (buildScalableBackendStack account region).database.ingress.map Prod.fst =
      [(buildScalableBackendStack account region).backendSecurityGroup.id] := by
  have hrd : referencedIds (buildScalableBackendStack account region) =
      referencedIds (buildScalableBackendStack none none) := rfl
  have hdd : declaredIds (buildScalableBackendStack account region) =
      declaredIds (buildScalableBackendStack none none) := rfl
  simp only [buildStack_autoScalingGroup, buildStack_vpc, buildStack_targetGroup,
    buildStack_database, buildStack_dbSubnetGroup, buildStack_backendSecurityGroup]
  rw [hrd, hdd]
  decide

/-- C6: the storage record enables object versioning, specifies
store-managed encryption at rest, and blocks all public access. -/
theorem c6_storage_record (account region : Option String) :
    (buildScalableBackendStack account region).dataBucket.versioned = true ∧
    (buildScalableBackendStack account region).dataBucket.encryption =
      BucketEncryption.s3Managed ∧
    (buildScalableBackendStack account region).dataBucket.blockPublicAccess =
      BlockPublicAccess.blockAll :=
  ⟨rfl, rfl, rfl⟩

/-- C7: descriptor-tree construction defines no error branch of its own:
for every pair of account/region inputs, including absent ones, the
constructor succeeds with the constructed tree. -/
theorem c7_no_error_handling (account region : Option String) :
    ∃ s, buildScalableBackendStackChecked account region = Except.ok s :=
  ⟨buildScalableBackendStack account region, rfl⟩

/-- C8: the scale-up step configuration adds one instance below a
CPU-utilization value of 50, makes no adjustment from 50 up to (but
excluding) 80, and adds two instances at or above 80; the scale-down
configuration removes one instance below 30. -/
theorem c8_scaling_steps (account region : Option String) (v : ℚ) :
    (v < 50 →
      evalScalingSteps
        (buildScalableBackendStack account region).scaleUpPolicy.scalingSteps v = 1) ∧
    (50 ≤ v → v < 80 →
      evalScalingSteps
        (buildScalableBackendStack account region).scaleUpPolicy.scalingSteps v = 0) ∧
    (80 ≤ v →
      evalScalingSteps
        (buildScalableBackendStack account region).scaleUpPolicy.scalingSteps v = 2) ∧
    (v < 30 →
      evalScalingSteps
        (buildScalableBackendStack account region).scaleDownPolicy.scalingSteps v = -1) := by
  simp only [buildStack_scaleUpPolicy, buildStack_scaleDownPolicy]
  refine ⟨?_, ?_, ?_, ?_⟩
  · intro h
    simp [scaleUpPolicy, evalScalingSteps, matchesInterval, h]
  · intro h1 h2
    simp [scaleUpPolicy, evalScalingSteps, matchesInterval,
      not_lt.mpr h1, not_le.mpr h2]
  · intro h
    have h50 : ¬ v < 50 := not_lt.mpr (le_trans (by norm_num) h)
    simp [scaleUpPolicy, evalScalingSteps, matchesInterval, h50, h]
  · intro h
    simp [scaleDownPolicy, evalScalingSteps, matchesInterval, h]

/-- C8 witness: the scaling-step theorem evaluated at metric values 40, 60,
90 and 10. -/
theorem c8_scaling_steps_witness :
    evalScalingSteps
      (buildScalableBackendStack none none).scaleUpPolicy.scalingSteps 40 = 1 ∧
    evalScalingSteps
      (buildScalableBackendStack none none).scaleUpPolicy.scalingSteps 60 = 0 ∧
    evalScalingSteps
      (buildScalableBackendStack none none).scaleUpPolicy.scalingSteps 90 = 2 ∧
    evalScalingSteps
      (buildScalableBackendStack none none).scaleDownPolicy.scalingSteps 10 = -1 :=
  ⟨(c8_scaling_steps none none 40).1 (by decide),
   (c8_scaling_steps none none 60).2.1 (by decide) (by decide),
   (c8_scaling_steps none none 90).2.2.1 (by decide),
   (c8_scaling_steps none none 10).2.2.2 (by decide)⟩

/-- C9: both persistent-data records are data-destructive on teardown: the
bucket and the database carry a destroy removal policy, and the database
has deletion protection and multi-AZ deployment disabled. -/
theorem c9_destructive_teardown (account region : Option String) :
    (buildScalableBackendStack account region).dataBucket.removalPolicy =
      RemovalPolicy.destroy ∧
    (buildScalableBackendStack account region).database.removalPolicy =
      RemovalPolicy.destroy ∧
    (buildScalableBackendStack account region).database.deletionProtection = false ∧
    (buildScalableBackendStack account region).database.multiAz = false :=
  ⟨rfl, rfl, rfl, rfl⟩

/-- C10: the observability records stand alone: the high-CPU alarm has
threshold 80, two evaluation periods, missing data treated as not
breaching, no alarm actions, and its id is referenced by no other record
of the tree; the dashboard has its name and contains no widgets. -/
theorem c10_observability_standalone (account region : Option String) :
    (buildScalableBackendStack account region).cpuAlarm.threshold = 80 ∧
    (buildScalableBackendStack account region).cpuAlarm.evaluationPeriods = 2 ∧
    (buildScalableBackendStack account region).cpuAlarm.treatMissingData =
      TreatMissingData.notBreaching ∧
    (buildScalableBackendStack account region).cpuAlarm.alarmActions = [] ∧
    (buildScalableBackendStack account region).cpuAlarm.id ∉
      referencedIds (buildScalableBackendStack account region) ∧
    (buildScalableBackendStack account region).dashboard.dashboardName =
      "ScalableBackendMonitoring" ∧
    (buildScalableBackendStack account region).dashboard.widgets = [] := by
  refine ⟨rfl, rfl, rfl, rfl, ?_, rfl, rfl⟩
  have hrd : referencedIds (buildScalableBackendStack account region) =
      referencedIds (buildScalableBackendStack none none) := rfl
  rw [hrd, show (buildScalableBackendStack account region).cpuAlarm.id =
    "HighCPUAlarm" from rfl]
  decide
